import Mathlib

/-!
Shallow embedding of the grid-model proxying subsystem of the repository
(`src/packages/iris-grid/src/IrisGridProxyModel.ts`).

The proxy holds an `originalModel`, the currently active `model`, an optional
pending cancelable transition (`modelPromise`), the three transformation
configurations (`rollup`, `partition`, `selectDistinct`), and the last
requested viewport.  Asynchrony is embedded as an explicit step function over
actions: issuing a configuration change records a pending transition with a
fresh transition id; separate `resolve` / `reject` actions model the eventual
completion of the underlying promise, in any order the scheduler chooses.
Object reference identity (JavaScript `===` on models, column arrays and the
select-distinct argument array) is embedded as explicit `Nat` reference tags.
Dispatched events, `close()` calls on backing models, listener subscriptions
and `setViewport` calls on backing models are accumulated in logs (most
recent first) so that claims about "exactly one event" or "no double
dispose" become statements about these logs.
-/

namespace IrisGridProxy

/-- Rollup configuration, compared by `deepEqual` in the source; embedded as a
structural value so deep equality is definitional equality. -/
structure RollupConfig where
  groupingColumns : List String
  aggregations : List (String × String)
deriving DecidableEq, Repr

/-- Partition mode discriminator: the `mode` field of `PartitionConfig`
(`keys`, `merged`, or the default partition-filter mode). -/
inductive PartitionMode
  | keys
  | merged
  | parts
deriving DecidableEq, Repr

/-- Partition configuration (`PartitionConfig` from the source), compared by
deep equality where the spec requires it. -/
structure PartitionConfig where
  mode : PartitionMode
  partitions : List Nat
deriving DecidableEq, Repr

/-- Shape of a backing model, as selected by the model factory `makeModel`:
tree table source, partitioned table source, or flat table. -/
inductive ModelKind
  | flat
  | tree
  | partitioned
deriving DecidableEq, Repr

/-- A backing model (`IrisGridModel` implementation).  `mid` is the object
reference identity; `columnsRef` is the reference identity of its `columns`
array (the source compares columns arrays with `!==`); `tableRef` is the
identity of the underlying data-source handle; the Bool fields are the
capability answers of the backing model itself. -/
structure ModelData where
  mid : Nat
  kind : ModelKind
  columns : List String
  columnsRef : Nat
  tableRef : Nat
  expandable : Bool
  editable : Bool
  rollupAvailable : Bool
  selectDistinctAvailable : Bool
  customColumnsAvailable : Bool
  partitionProvider : Bool
  partitionRequired : Bool
deriving DecidableEq, Repr

/-- Modelled from the spec: `isExpandableGridModel` comes from the
`@deephaven/grid` package, not under src/; per the spec it is a pure
capability predicate answering whether the model supports the expandable
capability set. -/
def isExpandableGridModel (m : ModelData) : Bool :=
  m.expandable

/-- Modelled from the spec: `isEditableGridModel` comes from the
`@deephaven/grid` package, not under src/; pure capability predicate for the
editable capability set. -/
def isEditableGridModel (m : ModelData) : Bool :=
  m.editable

/-- Modelled from the spec: `isPartitionedGridModelProvider` is declared in
`PartitionedGridModel.ts`, not under src/; pure capability predicate for the
partition-provider capability set. -/
def isPartitionedGridModelProvider (m : ModelData) : Bool :=
  m.partitionProvider

/-- Modelled from the spec: `isIrisGridTableModelTemplate` is declared in
`IrisGridTableModelTemplate.ts`, not under src/.  Per the spec the
table-backed capability "exposes the single concrete data-source handle
(absent for tree-backed models)" and the table-changed event fires for a
"table-backed (non-hierarchical)" model, so the predicate holds exactly for
flat table-backed models. -/
def isIrisGridTableModelTemplate (m : ModelData) : Bool :=
  m.kind = ModelKind.flat

/-- Modelled from the spec: `TableUtils.isTreeTable` comes from
`@deephaven/jsapi-utils`, not under src/; shape discriminator for
hierarchical (tree-backed) models. -/
def isTreeTable (m : ModelData) : Bool :=
  m.kind = ModelKind.tree

/-- A requested viewport: `{top, bottom, columns}` as stored in
`currentViewport`.  `cols` is the reference identity of the optional columns
array argument. -/
structure Viewport where
  top : Nat
  bottom : Nat
  cols : Option Nat
deriving DecidableEq, Repr

/-- Events dispatched on the proxy itself (`dispatchEvent` calls in the
source): columns-changed carrying the new columns array, table-changed
carrying the data-source handle, request-failed carrying the error. -/
inductive ProxyEvent
  | columnsChanged (columnsRef : Nat)
  | tableChanged (tableRef : Nat)
  | requestFailed (err : Nat)
deriving DecidableEq, Repr

/-- Kind of a pending transition: `toOriginal` is the
`Promise.resolve(this.originalModel)` path taken when the configuration is
absent; `build` is an asynchronous data-source derivation followed by
`makeModel`. -/
inductive TransKind
  | toOriginal
  | build
deriving DecidableEq, Repr

/-- The whole observable state of one `IrisGridProxyModel` plus the logs of
its side effects.  `modelPromise` holds the (transition id, kind) of the
current pending cancelable promise; `canceledTids` the ids of all transitions
whose cancelable wrapper has been canceled; `events` the dispatched proxy
events (most recent first); `closedLog` the model ids on which `close()` was
called (most recent first, with multiplicity); `subs` the model ids the proxy
currently has event listeners attached to; `viewportCalls` the
`setViewport` calls made on backing models; `nextTid` a fresh-transition-id
counter. -/
structure ProxyState where
  originalModel : ModelData
  model : ModelData
  modelPromise : Option (Nat × TransKind)
  rollup : Option RollupConfig
  partition : Option PartitionConfig
  selectDistinct : List String
  selectDistinctRef : Nat
  currentViewport : Option Viewport
  listenerCount : Nat
  subs : List Nat
  events : List ProxyEvent
  closedLog : List Nat
  canceledTids : List Nat
  viewportCalls : List (Nat × Viewport)
  nextTid : Nat
deriving DecidableEq, Repr

/-- Constructor of `IrisGridProxyModel`: the model factory builds the
original model from the raw source and it starts active, with no pending
transition and empty configurations. -/
def mkProxy (m : ModelData) : ProxyState :=
  { originalModel := m
    model := m
    modelPromise := none
    rollup := none
    partition := none
    selectDistinct := []
    selectDistinctRef := 0
    currentViewport := none
    listenerCount := 0
    subs := []
    events := []
    closedLog := []
    canceledTids := []
    viewportCalls := []
    nextTid := 1 }

/-- `dispatchEvent` on the proxy: record the event. -/
def dispatch (s : ProxyState) (e : ProxyEvent) : ProxyState :=
  { s with events := e :: s.events }

/-- `model.close()` on a backing model: record the close. -/
def closeModel (s : ProxyState) (m : ModelData) : ProxyState :=
  { s with closedLog := m.mid :: s.closedLog }

/-- `addListeners(model)`: attach the proxy event relay to the model. -/
def addListeners (s : ProxyState) (m : ModelData) : ProxyState :=
  { s with subs := m.mid :: s.subs }

/-- `removeListeners(model)`: detach the proxy event relay from the model. -/
def removeListeners (s : ProxyState) (m : ModelData) : ProxyState :=
  { s with subs := s.subs.filter (fun x => x ≠ m.mid) }

/-- `setModel` (source lines 126-161): close the old active model unless it
is the original, install the new model, re-attach listeners when the proxy
has any, dispatch columns-changed when the columns array changed by
reference and otherwise reapply the stored viewport, and dispatch
table-changed when the new model is table-backed. -/
def setModelS (s : ProxyState) (m : ModelData) : ProxyState :=
  let oldModel := s.model
  let s1 := if oldModel.mid = s.originalModel.mid then s else closeModel s oldModel
  let s2 := { s1 with model := m }
  let s3 := if 0 < s2.listenerCount then addListeners s2 m else s2
  let s4 :=
    if oldModel.columnsRef = m.columnsRef then
      match s3.currentViewport with
      | some v => { s3 with viewportCalls := (m.mid, v) :: s3.viewportCalls }
      | none => s3
    else
      dispatch s3 (ProxyEvent.columnsChanged m.columnsRef)
  if isIrisGridTableModelTemplate m then
    dispatch s4 (ProxyEvent.tableChanged m.tableRef)
  else s4

/-- `setNextModel` (source lines 163-198), the synchronous part: cancel any
previous pending cancelable promise, detach listeners from the active model
when the proxy has any, and record the new pending transition under a fresh
transition id. -/
def setNextModelS (s : ProxyState) (k : TransKind) : ProxyState :=
  let s1 :=
    match s.modelPromise with
    | some (t, _) => { s with canceledTids := t :: s.canceledTids }
    | none => s
  let s2 := if 0 < s1.listenerCount then removeListeners s1 s1.model else s1
  { s2 with modelPromise := some (s2.nextTid, k), nextTid := s2.nextTid + 1 }

/-- Resolution of the underlying promise of transition `tid` with model `m`.
Modelled from the spec for the cancelable wrapper (`PromiseUtils.makeCancelable`
from `@deephaven/utils`, not under src/): if the transition was canceled, the
wrapper invokes the disposal callback (`model.close()`) on the late result
and rejects with a canceled error, which the catch handler silently ignores;
otherwise the then handler clears the pending slot and calls `setModel`. -/
def resolveS (s : ProxyState) (tid : Nat) (m : ModelData) : ProxyState :=
  if tid ∈ s.canceledTids then
    { s with closedLog := m.mid :: s.closedLog }
  else
    match s.modelPromise with
    | some (t, _) =>
        if t = tid then setModelS { s with modelPromise := none } m else s
    | none => s

/-- Rejection of the underlying promise of transition `tid` with error
`err`.  If the transition was canceled the catch handler sees a canceled
error and returns silently; otherwise it clears the pending slot and
dispatches a request-failed event carrying the error. -/
def rejectS (s : ProxyState) (tid : Nat) (err : Nat) : ProxyState :=
  if tid ∈ s.canceledTids then s
  else
    match s.modelPromise with
    | some (t, _) =>
        if t = tid then
          dispatch { s with modelPromise := none } (ProxyEvent.requestFailed err)
        else s
    | none => s

/-- `close` (source lines 109-117): close `originalModel`, close the active
model when it is a different object, and cancel any pending transition. -/
def closeS (s : ProxyState) : ProxyState :=
  let s1 := closeModel s s.originalModel
  let s2 := if s1.model.mid = s1.originalModel.mid then s1 else closeModel s1 s1.model
  match s2.modelPromise with
  | some (t, _) => { s2 with canceledTids := t :: s2.canceledTids }
  | none => s2

/-- `setViewport` (source lines 741-748): remember the viewport and forward
the call to the active model. -/
def setViewportS (s : ProxyState) (top bottom : Nat) (cols : Option Nat) : ProxyState :=
  let v : Viewport := ⟨top, bottom, cols⟩
  { s with currentViewport := some v
           viewportCalls := (s.model.mid, v) :: s.viewportCalls }

/-- Modelled from the spec: the listener count is maintained by the base
class `IrisGridModel` (not under src/); when it rises from zero the proxy
attaches its relay to the active model (`startListening`, source lines
200-204). -/
def addProxyListenerS (s : ProxyState) : ProxyState :=
  let s1 := { s with listenerCount := s.listenerCount + 1 }
  if s.listenerCount = 0 then addListeners s1 s1.model else s1

/-- Modelled from the spec: when the listener count falls back to zero the
proxy detaches its relay from the active model (`stopListening`, source
lines 206-210). -/
def removeProxyListenerS (s : ProxyState) : ProxyState :=
  let s1 := { s with listenerCount := s.listenerCount - 1 }
  if s.listenerCount = 1 then removeListeners s1 s1.model else s1

/-- `get isRollupAvailable` (source lines 380-385). -/
def isRollupAvailableS (s : ProxyState) : Bool :=
  (s.originalModel.rollupAvailable || s.rollup.isSome) && s.selectDistinct.isEmpty

/-- `get isSelectDistinctAvailable` (source lines 387-393). -/
def isSelectDistinctAvailableS (s : ProxyState) : Bool :=
  (s.originalModel.selectDistinctAvailable || !s.selectDistinct.isEmpty)
    && s.rollup.isNone

/-- `get selectDistinctColumns` (source lines 635-637). -/
def selectDistinctColumnsS (s : ProxyState) : List String :=
  s.selectDistinct

/-- `get isCustomColumnsAvailable` (source lines 364-370): the active model
must report it available and no select-distinct transformation may be in
effect. -/
def isCustomColumnsAvailableS (s : ProxyState) : Bool :=
  s.model.customColumnsAvailable
    && !(isSelectDistinctAvailableS s && !(selectDistinctColumnsS s).isEmpty)

/-- `get isPartitionRequired` (source lines 693-697). -/
def isPartitionRequiredS (s : ProxyState) : Bool :=
  isPartitionedGridModelProvider s.originalModel && s.originalModel.partitionRequired

/-- `set rollupConfig` (source lines 607-633): validate availability, no-op
when the new value is deep-equal to the stored one, otherwise record the
config and start the next transition (a derivation when the original model
is table-backed and the config is present, else resolve to the original). -/
def setRollupConfigS (s : ProxyState) (rc : Option RollupConfig) :
    Except String ProxyState :=
  if !isRollupAvailableS s then Except.error "Rollup Rows are not available"
  else if rc = s.rollup then Except.ok s
  else
    let s1 := { s with rollup := rc }
    let k :=
      if isIrisGridTableModelTemplate s1.originalModel && rc.isSome then
        TransKind.build
      else TransKind.toOriginal
    Except.ok (setNextModelS s1 k)

/-- `set partitionConfig` (source lines 517-545): validate availability,
record the config, and always start the next transition; there is no
equality check on this path. -/
def setPartitionConfigS (s : ProxyState) (pc : Option PartitionConfig) :
    Except String ProxyState :=
  if !isPartitionRequiredS s then Except.error "Partitions are not available"
  else
    let s1 := { s with partition := pc }
    let k :=
      if pc.isSome && isPartitionedGridModelProvider s1.originalModel then
        TransKind.build
      else TransKind.toOriginal
    Except.ok (setNextModelS s1 k)

/-- A JavaScript array argument: reference identity plus contents.  The
select-distinct setter compares its argument to the stored array with `===`.
-/
structure ColsArr where
  ref : Nat
  vals : List String
deriving DecidableEq, Repr

/-- `set selectDistinctColumns` (source lines 639-671): validate
availability; no-op when the argument is the same array object as the stored
one or both are empty; otherwise record the columns and start the next
transition (a derivation when the original model is table-backed and at
least one name matches an original column, else resolve to the original). -/
def setSelectDistinctColumnsS (s : ProxyState) (cols : ColsArr) :
    Except String ProxyState :=
  if !isSelectDistinctAvailableS s then
    Except.error "Select distinct is not available"
  else if cols.ref = s.selectDistinctRef
      || (cols.vals.isEmpty && s.selectDistinct.isEmpty) then
    Except.ok s
  else
    let s1 := { s with selectDistinct := cols.vals, selectDistinctRef := cols.ref }
    let matched := cols.vals.filter (fun n => s.originalModel.columns.contains n)
    let k :=
      if isIrisGridTableModelTemplate s1.originalModel && !matched.isEmpty then
        TransKind.build
      else TransKind.toOriginal
    Except.ok (setNextModelS s1 k)

/-- `setRowExpanded` (source lines 323-328): forward when the active model is
expandable (`delegate` is what the backing model returns), otherwise throw.
-/
def setRowExpandedS (s : ProxyState) (row : Nat) (expanded : Bool)
    (delegate : Unit) : Except String Unit :=
  if isExpandableGridModel s.model then Except.ok delegate
  else Except.error "Function setRowExpanded does not exist on IrisGridTableModel"

/-- `expandAll` (source lines 330-335). -/
def expandAllS (s : ProxyState) (delegate : Unit) : Except String Unit :=
  if isExpandableGridModel s.model then Except.ok delegate
  else Except.error "Function expandAll does not exist on IrisGridTableModel"

/-- `collapseAll` (source lines 337-342). -/
def collapseAllS (s : ProxyState) (delegate : Unit) : Except String Unit :=
  if isExpandableGridModel s.model then Except.ok delegate
  else Except.error "Function collapseAll does not exist on IrisGridTableModel"

/-- `isRowExpandable` (source lines 309-314): neutral `false` when the
active model is not expandable. -/
def isRowExpandableS (s : ProxyState) (row : Nat) (delegate : Bool) : Bool :=
  if isExpandableGridModel s.model then delegate else false

/-- `isRowExpanded` (source lines 316-321). -/
def isRowExpandedS (s : ProxyState) (row : Nat) (delegate : Bool) : Bool :=
  if isExpandableGridModel s.model then delegate else false

/-- `depthForRow` (source lines 344-350): neutral `0` when the active model
is not expandable. -/
def depthForRowS (s : ProxyState) (row : Nat) (delegate : Nat) : Nat :=
  if isExpandableGridModel s.model then delegate else 0

/-- `isValidForCell` (source lines 801-806): neutral `false` when the active
model is not editable. -/
def isValidForCellS (s : ProxyState) (delegate : Bool) : Bool :=
  if isEditableGridModel s.model then delegate else false

/-- `editValueForCell` (source lines 773-778): neutral empty string when the
active model is not editable. -/
def editValueForCellS (s : ProxyState) (delegate : String) : String :=
  if isEditableGridModel s.model then delegate else ""

/-- `setValueForCell` (source lines 780-785): rejected promise carrying an
explicit error when the active model is not editable. -/
def setValueForCellS (s : ProxyState) (delegate : Except String Unit) :
    Except String Unit :=
  if isEditableGridModel s.model then delegate
  else Except.error "Model is not editable"

/-- `setValueForRanges` (source lines 787-792). -/
def setValueForRangesS (s : ProxyState) (delegate : Except String Unit) :
    Except String Unit :=
  if isEditableGridModel s.model then delegate
  else Except.error "Model is not editable"

/-- `setValues` (source lines 794-799): on a non-editable model the source
returns `Promise.resolve()`, a silently resolved promise. -/
def setValuesS (s : ProxyState) (delegate : Except String Unit) :
    Except String Unit :=
  if isEditableGridModel s.model then delegate
  else Except.ok ()

/-- One scheduler-visible action on the proxy.  Setter actions that throw
synchronously leave the state unchanged (the source throws before any
mutation). -/
inductive Action
  | rollupCfg (rc : Option RollupConfig)
  | partitionCfg (pc : Option PartitionConfig)
  | selectDistinctCfg (cols : ColsArr)
  | resolve (tid : Nat) (m : ModelData)
  | reject (tid : Nat) (err : Nat)
  | closeProxy
  | viewport (top bottom : Nat) (cols : Option Nat)
  | listen
  | unlisten
deriving DecidableEq, Repr

/-- Step function over actions. -/
def step (s : ProxyState) (a : Action) : ProxyState :=
  match a with
  | Action.rollupCfg rc =>
      match setRollupConfigS s rc with
      | Except.ok s1 => s1
      | Except.error _ => s
  | Action.partitionCfg pc =>
      match setPartitionConfigS s pc with
      | Except.ok s1 => s1
      | Except.error _ => s
  | Action.selectDistinctCfg cols =>
      match setSelectDistinctColumnsS s cols with
      | Except.ok s1 => s1
      | Except.error _ => s
  | Action.resolve tid m => resolveS s tid m
  | Action.reject tid err => rejectS s tid err
  | Action.closeProxy => closeS s
  | Action.viewport top bottom cols => setViewportS s top bottom cols
  | Action.listen => addProxyListenerS s
  | Action.unlisten => removeProxyListenerS s

/-- Run a trace of actions from a state. -/
def run (s : ProxyState) (tr : List Action) : ProxyState :=
  tr.foldl step s

/-- Event classifier: columns-changed events. -/
def isColumnsChangedEvent : ProxyEvent → Bool
  | ProxyEvent.columnsChanged _ => true
  | _ => false

/-- Event classifier: table-changed events. -/
def isTableChangedEvent : ProxyEvent → Bool
  | ProxyEvent.tableChanged _ => true
  | _ => false

/-- Event classifier: request-failed events. -/
def isRequestFailedEvent : ProxyEvent → Bool
  | ProxyEvent.requestFailed _ => true
  | _ => false

/-- Characterization of `setModelS` as a simultaneous record update: each
side-effect log of the swap, computed from the pre-state. -/
theorem setModelS_eq (s : ProxyState) (m : ModelData) :
    setModelS s m =
      { s with
        model := m
        closedLog :=
          if s.model.mid = s.originalModel.mid then s.closedLog
          else s.model.mid :: s.closedLog
        subs := if 0 < s.listenerCount then m.mid :: s.subs else s.subs
        events :=
          (if isIrisGridTableModelTemplate m then
            [ProxyEvent.tableChanged m.tableRef] else [])
          ++ (if s.model.columnsRef = m.columnsRef then []
              else [ProxyEvent.columnsChanged m.columnsRef])
          ++ s.events
        viewportCalls :=
          if s.model.columnsRef = m.columnsRef then
            match s.currentViewport with
            | some v => (m.mid, v) :: s.viewportCalls
            | none => s.viewportCalls
          else s.viewportCalls } := by
  unfold setModelS dispatch closeModel addListeners
  by_cases h1 : s.model.mid = s.originalModel.mid <;>
    by_cases h2 : 0 < s.listenerCount <;>
    by_cases h3 : s.model.columnsRef = m.columnsRef <;>
    by_cases h4 : isIrisGridTableModelTemplate m = true <;>
    simp only [h1, h2, h3, h4, if_true, if_false, ite_true, ite_false,
      Bool.not_eq_true, if_pos, if_neg, not_false_iff] <;>
    cases hv : s.currentViewport <;> simp [h1, h2, h3, h4, hv]

/-- Characterization of `setNextModelS` as a simultaneous record update. -/
theorem setNextModelS_eq (s : ProxyState) (k : TransKind) :
    setNextModelS s k =
      { s with
        canceledTids :=
          match s.modelPromise with
          | some (t, _) => t :: s.canceledTids
          | none => s.canceledTids
        subs :=
          if 0 < s.listenerCount then
            s.subs.filter (fun x => x ≠ s.model.mid)
          else s.subs
        modelPromise := some (s.nextTid, k)
        nextTid := s.nextTid + 1 } := by
  unfold setNextModelS removeListeners
  cases hp : s.modelPromise <;> by_cases h2 : 0 < s.listenerCount <;>
    simp [hp, h2]

/-- Characterization of `closeS` as a simultaneous record update. -/
theorem closeS_eq (s : ProxyState) :
    closeS s =
      { s with
        closedLog :=
          if s.model.mid = s.originalModel.mid then
            s.originalModel.mid :: s.closedLog
          else s.model.mid :: s.originalModel.mid :: s.closedLog
        canceledTids :=
          match s.modelPromise with
          | some (t, _) => t :: s.canceledTids
          | none => s.canceledTids } := by
  unfold closeS closeModel
  by_cases h1 : s.model.mid = s.originalModel.mid <;>
    cases hp : s.modelPromise <;> simp [h1, hp]

/-! Concrete fixtures used by witnesses and counterexamples. -/

/-- A flat table-backed model with reference identity `i`: not expandable,
not editable, rollup and select-distinct available on it. -/
def flatModel (i : Nat) : ModelData :=
  { mid := i, kind := ModelKind.flat, columns := ["A", "B"], columnsRef := i
    tableRef := i, expandable := false, editable := false
    rollupAvailable := true, selectDistinctAvailable := true
    customColumnsAvailable := true, partitionProvider := false
    partitionRequired := false }

/-- A partitioned-table-backed model with reference identity `i` that
requires a partition. -/
def partModel (i : Nat) : ModelData :=
  { mid := i, kind := ModelKind.partitioned, columns := ["A"], columnsRef := i
    tableRef := i, expandable := false, editable := false
    rollupAvailable := false, selectDistinctAvailable := false
    customColumnsAvailable := false, partitionProvider := true
    partitionRequired := true }

/-- A sample rollup configuration. -/
def sampleRollup : RollupConfig :=
  { groupingColumns := ["A"], aggregations := [] }

/-- A second, different sample rollup configuration. -/
def sampleRollup2 : RollupConfig :=
  { groupingColumns := ["B"], aggregations := [] }

/-- A sample partition configuration. -/
def samplePartitionCfg : PartitionConfig :=
  { mode := PartitionMode.merged, partitions := [] }

/-- Proxy freshly constructed over a flat table. -/
def baseProxy : ProxyState := mkProxy (flatModel 0)

/-! Claim C4. -/

/-- C4: availability mutual exclusivity.  In every proxy state,
`isRollupAvailable` is false whenever the stored select-distinct column list
is non-empty, `isSelectDistinctAvailable` is false whenever a rollup config
is stored, the two availability getters are never simultaneously true once
either configuration is non-empty, and this is enforced by the availability
checks alone: a successful rollup set leaves the stored select-distinct
state untouched and a successful select-distinct set leaves the stored
rollup untouched. -/
theorem C4_availability_mutual_exclusivity (s : ProxyState) :
    (s.selectDistinct ≠ [] → isRollupAvailableS s = false)
    ∧ (s.rollup ≠ none → isSelectDistinctAvailableS s = false)
    ∧ ((s.selectDistinct ≠ [] ∨ s.rollup ≠ none) →
        ¬(isRollupAvailableS s = true ∧ isSelectDistinctAvailableS s = true))
    ∧ (∀ rc s1, setRollupConfigS s rc = Except.ok s1 →
        s1.selectDistinct = s.selectDistinct
        ∧ s1.selectDistinctRef = s.selectDistinctRef)
    ∧ (∀ cols s2, setSelectDistinctColumnsS s cols = Except.ok s2 →
        s2.rollup = s.rollup) := by
  refine ⟨?_, ?_, ?_, ?_, ?_⟩
  · intro h
    cases hsd : s.selectDistinct with
    | nil => exact absurd hsd h
    | cons a l => simp [isRollupAvailableS, hsd]
  · intro h
    cases hr : s.rollup with
    | none => exact absurd hr h
    | some rc => simp [isSelectDistinctAvailableS, hr]
  · rintro (h | h) ⟨h1, h2⟩
    · cases hsd : s.selectDistinct with
      | nil => exact absurd hsd h
      | cons a l => simp [isRollupAvailableS, hsd] at h1
    · cases hr : s.rollup with
      | none => exact absurd hr h
      | some rc => simp [isSelectDistinctAvailableS, hr] at h2
  · intro rc s1 h
    unfold setRollupConfigS at h
    by_cases ha : isRollupAvailableS s = true
    · simp only [ha, Bool.not_true, if_false, ite_false] at h
      by_cases he : rc = s.rollup
      · simp only [he, if_true, ite_true] at h
        cases h
        exact ⟨rfl, rfl⟩
      · simp only [he, if_false, ite_false] at h
        cases h
        simp [setNextModelS_eq]
    · simp [ha] at h
  · intro cols s2 h
    unfold setSelectDistinctColumnsS at h
    by_cases ha : isSelectDistinctAvailableS s = true
    · simp only [ha, Bool.not_true, if_false, ite_false] at h
      by_cases he : (cols.ref = s.selectDistinctRef
          || (cols.vals.isEmpty && s.selectDistinct.isEmpty)) = true
      · simp only [he, if_true, ite_true] at h
        cases h
        rfl
      · simp only [he, if_false, ite_false] at h
        cases h
        simp [setNextModelS_eq]
    · simp [ha] at h

/-- State with a non-empty select-distinct configuration, reached by one
select-distinct change on a fresh flat-table proxy. -/
def c4sdState : ProxyState :=
  run baseProxy [Action.selectDistinctCfg ⟨1, ["A"]⟩]

/-- State with a rollup configuration, reached by one rollup change on a
fresh flat-table proxy. -/
def c4rollupState : ProxyState :=
  run baseProxy [Action.rollupCfg (some sampleRollup)]

/-- Witness for C4 at concrete reachable states. -/
theorem C4_witness :
    isRollupAvailableS c4sdState = false
    ∧ isSelectDistinctAvailableS c4rollupState = false
    ∧ ¬(isRollupAvailableS c4sdState = true
        ∧ isSelectDistinctAvailableS c4sdState = true)
    ∧ c4rollupState.selectDistinct = baseProxy.selectDistinct
    ∧ c4sdState.rollup = baseProxy.rollup := by
  refine ⟨(C4_availability_mutual_exclusivity c4sdState).1 (by decide),
    (C4_availability_mutual_exclusivity c4rollupState).2.1 (by decide),
    (C4_availability_mutual_exclusivity c4sdState).2.2.1 (Or.inl (by decide)) ,
    ((C4_availability_mutual_exclusivity baseProxy).2.2.2.1
      (some sampleRollup) c4rollupState (by rfl)).1,
    (C4_availability_mutual_exclusivity baseProxy).2.2.2.2
      ⟨1, ["A"]⟩ c4sdState (by rfl)⟩

/-! Claim C10. -/

/-- C10: `isCustomColumnsAvailable` is false whenever a select-distinct
transformation is in effect (select-distinct available and stored columns
non-empty), even when the active backing model reports custom columns
available; in every other state it equals the active model answer. -/
theorem C10_customColumns_disabled_for_selectDistinct (s : ProxyState) :
    (isSelectDistinctAvailableS s = true → s.selectDistinct ≠ [] →
        isCustomColumnsAvailableS s = false)
    ∧ (¬(isSelectDistinctAvailableS s = true ∧ s.selectDistinct ≠ []) →
        isCustomColumnsAvailableS s = s.model.customColumnsAvailable) := by
  constructor
  · intro h1 h2
    cases hsd : s.selectDistinct with
    | nil => exact absurd hsd h2
    | cons a l =>
        simp [isCustomColumnsAvailableS, selectDistinctColumnsS, h1, hsd]
  · intro h
    by_cases h1 : isSelectDistinctAvailableS s = true
    · have h2 : s.selectDistinct = [] := by
        by_contra hne
        exact h ⟨h1, hne⟩
      simp [isCustomColumnsAvailableS, selectDistinctColumnsS, h1, h2]
    · simp only [Bool.not_eq_true] at h1
      simp [isCustomColumnsAvailableS, selectDistinctColumnsS, h1]

/-- Witness for C10: select-distinct in effect on a model that itself
reports custom columns available, and a fresh proxy with no transformation.
-/
theorem C10_witness :
    isCustomColumnsAvailableS c4sdState = false
    ∧ isCustomColumnsAvailableS baseProxy
        = baseProxy.model.customColumnsAvailable := by
  exact ⟨(C10_customColumns_disabled_for_selectDistinct c4sdState).1
      (by decide) (by decide),
    (C10_customColumns_disabled_for_selectDistinct baseProxy).2 (by decide)⟩

/-! Claim C9. -/

/-- Proxy over a flat table model: not expandable and not editable. -/
def c9state : ProxyState := mkProxy (flatModel 0)

/-- C9 counterexample: on a non-editable active model, `setValues` does not
fail explicitly; the source returns `Promise.resolve()`, a silently resolved
promise, so the claim that all three editing mutations fail explicitly is
false. -/
theorem C9_counterexample :
    isEditableGridModel c9state.model = false
    ∧ setValuesS c9state (Except.error "ignored") = Except.ok ()
    ∧ setValueForCellS c9state (Except.ok ())
        = Except.error "Model is not editable" := by
  refine ⟨rfl, rfl, rfl⟩

/-- C9 amended: on an active model lacking the expandable capability,
`setRowExpanded`, `expandAll` and `collapseAll` throw their exact explicit
errors while the pure queries return the documented neutral values
(`isRowExpandable`/`isRowExpanded` false, `depthForRow` 0); on an active
model lacking the editable capability, the pure queries return neutral
values (`isValidForCell` false, `editValueForCell` empty string),
`setValueForCell` and `setValueForRanges` fail explicitly with a rejected
promise, but `setValues` silently resolves instead of failing.  None of
these operations changes any proxy state. -/
theorem C9_capability_unavailable_policy (s : ProxyState) (row : Nat)
    (b : Bool) (n : Nat) (str : String) (d : Except String Unit) :
    (isExpandableGridModel s.model = false →
      setRowExpandedS s row b ()
          = Except.error "Function setRowExpanded does not exist on IrisGridTableModel"
      ∧ expandAllS s ()
          = Except.error "Function expandAll does not exist on IrisGridTableModel"
      ∧ collapseAllS s ()
          = Except.error "Function collapseAll does not exist on IrisGridTableModel"
      ∧ isRowExpandableS s row b = false
      ∧ isRowExpandedS s row b = false
      ∧ depthForRowS s row n = 0)
    ∧ (isEditableGridModel s.model = false →
      isValidForCellS s b = false
      ∧ editValueForCellS s str = ""
      ∧ setValueForCellS s d = Except.error "Model is not editable"
      ∧ setValueForRangesS s d = Except.error "Model is not editable"
      ∧ setValuesS s d = Except.ok ()) := by
  constructor
  · intro h
    refine ⟨?_, ?_, ?_, ?_, ?_, ?_⟩ <;>
      simp [setRowExpandedS, expandAllS, collapseAllS, isRowExpandableS,
        isRowExpandedS, depthForRowS, h]
  · intro h
    refine ⟨?_, ?_, ?_, ?_, ?_⟩ <;>
      simp [isValidForCellS, editValueForCellS, setValueForCellS,
        setValueForRangesS, setValuesS, h]

/-- Witness for the amended C9 at a concrete non-expandable, non-editable
state. -/
theorem C9_witness :
    setRowExpandedS c9state 3 true ()
        = Except.error "Function setRowExpanded does not exist on IrisGridTableModel"
    ∧ depthForRowS c9state 3 7 = 0
    ∧ editValueForCellS c9state "x" = ""
    ∧ setValuesS c9state (Except.ok ()) = Except.ok () := by
  refine ⟨((C9_capability_unavailable_policy c9state 3 true 7 "x"
      (Except.ok ())).1 (by decide)).1,
    ((C9_capability_unavailable_policy c9state 3 true 7 "x"
      (Except.ok ())).1 (by decide)).2.2.2.2.2,
    ((C9_capability_unavailable_policy c9state 3 true 7 "x"
      (Except.ok ())).2 (by decide)).2.1,
    ((C9_capability_unavailable_policy c9state 3 true 7 "x"
      (Except.ok ())).2 (by decide)).2.2.2.2⟩

/-! Claim C2. -/

/-- Proxy over a partition-required source after one partition change that
resolved: the stored partition configuration is `samplePartitionCfg` and no
transition is pending. -/
def c2state : ProxyState :=
  run (mkProxy (partModel 0))
    [Action.partitionCfg (some samplePartitionCfg), Action.resolve 1 (flatModel 1)]

/-! Claim C3. -/

/-- C3: when a pending transition fails for a reason other than
cancellation, the pending slot is cleared, exactly one request-failed event
carrying the error is dispatched, and the active model is unchanged; for a
canceled transition, neither its late resolution nor its late rejection
emits any event or changes the active model (rejection changes nothing at
all; resolution only invokes the disposal callback). -/
theorem C3_transition_failure_handling (s : ProxyState) (tid tid2 : Nat)
    (k : TransKind) (err err2 : Nat) (m : ModelData) :
    (s.modelPromise = some (tid, k) → tid ∉ s.canceledTids →
      (rejectS s tid err).modelPromise = none
      ∧ (rejectS s tid err).events = ProxyEvent.requestFailed err :: s.events
      ∧ (rejectS s tid err).model = s.model)
    ∧ (tid2 ∈ s.canceledTids →
      (resolveS s tid2 m).events = s.events
      ∧ (resolveS s tid2 m).model = s.model
      ∧ rejectS s tid2 err2 = s) := by
  constructor
  · intro hp hmem
    simp [rejectS, hp, hmem, dispatch]
  · intro hmem
    simp [resolveS, rejectS, hmem]

/-- Reachable state with one pending uncanceled transition (id 1). -/
def c3pending : ProxyState :=
  run baseProxy [Action.rollupCfg (some sampleRollup)]

/-- Reachable state where transition 1 was superseded (canceled) by
transition 2. -/
def c3canceled : ProxyState :=
  run baseProxy
    [Action.rollupCfg (some sampleRollup), Action.rollupCfg (some sampleRollup2)]

/-- Witness for C3: rejecting the pending transition dispatches one
request-failed event and clears the slot; a canceled transition resolving or
rejecting late changes nothing observable. -/
theorem C3_witness :
    (rejectS c3pending 1 42).modelPromise = none
    ∧ (rejectS c3pending 1 42).events
        = ProxyEvent.requestFailed 42 :: c3pending.events
    ∧ (rejectS c3pending 1 42).model = c3pending.model
    ∧ (resolveS c3canceled 1 (flatModel 5)).events = c3canceled.events
    ∧ (resolveS c3canceled 1 (flatModel 5)).model = c3canceled.model
    ∧ rejectS c3canceled 1 9 = c3canceled := by
  refine ⟨((C3_transition_failure_handling c3pending 1 1 TransKind.build 42 9
        (flatModel 5)).1 (by decide) (by decide)).1,
    ((C3_transition_failure_handling c3pending 1 1 TransKind.build 42 9
        (flatModel 5)).1 (by decide) (by decide)).2.1,
    ((C3_transition_failure_handling c3pending 1 1 TransKind.build 42 9
        (flatModel 5)).1 (by decide) (by decide)).2.2,
    ((C3_transition_failure_handling c3canceled 2 1 TransKind.build 42 9
        (flatModel 5)).2 (by decide)).1,
    ((C3_transition_failure_handling c3canceled 2 1 TransKind.build 42 9
        (flatModel 5)).2 (by decide)).2.1,
    ((C3_transition_failure_handling c3canceled 2 1 TransKind.build 42 9
        (flatModel 5)).2 (by decide)).2.2⟩

/-! Claim C5. -/

/-- C5: swap reconciliation.  When `setModel` installs a new model whose
columns array differs by reference from the old one, exactly one
columns-changed event carrying the new columns is dispatched and no viewport
is reapplied; when the columns array is identical by reference, no
columns-changed event fires and, if a viewport was previously requested,
exactly one `setViewport` call with those same arguments is made on the new
model (none when no viewport was ever requested). -/
theorem C5_swap_reconciliation (s : ProxyState) (m : ModelData) :
    (s.model.columnsRef ≠ m.columnsRef →
      (setModelS s m).events.countP isColumnsChangedEvent
          = s.events.countP isColumnsChangedEvent + 1
      ∧ ProxyEvent.columnsChanged m.columnsRef ∈ (setModelS s m).events
      ∧ (setModelS s m).viewportCalls = s.viewportCalls)
    ∧ (s.model.columnsRef = m.columnsRef →
      (setModelS s m).events.countP isColumnsChangedEvent
          = s.events.countP isColumnsChangedEvent
      ∧ (∀ v, s.currentViewport = some v →
          (setModelS s m).viewportCalls = (m.mid, v) :: s.viewportCalls)
      ∧ (s.currentViewport = none →
          (setModelS s m).viewportCalls = s.viewportCalls)) := by
  constructor
  · intro hne
    rw [setModelS_eq]
    by_cases ht : isIrisGridTableModelTemplate m = true <;>
      simp [ht, hne, List.countP_cons, isColumnsChangedEvent,
        isTableChangedEvent]
  · intro heq
    rw [setModelS_eq]
    refine ⟨?_, ?_, ?_⟩
    · by_cases ht : isIrisGridTableModelTemplate m = true <;>
        simp [ht, heq, List.countP_cons, isColumnsChangedEvent]
    · intro v hv
      simp [heq, hv]
    · intro hv
      simp [heq, hv]

/-- A replacement model whose columns array is the same reference as the
fixture flat model 0 but with a fresh model identity. -/
def sameColsModel : ModelData :=
  { flatModel 2 with columnsRef := 0 }

/-- Reachable state with a viewport requested: a fresh flat proxy after
`setViewport(5, 50, undefined)`. -/
def c5viewportState : ProxyState :=
  run baseProxy [Action.viewport 5 50 none]

/-- Witness for C5: installing a different-columns model dispatches one
columns-changed event and reapplies nothing, and installing a same-columns
model on a state with viewport `{top 5, bottom 50}` makes exactly one
`setViewport(5, 50, none)` call on the new model and dispatches no
columns-changed event. -/
theorem C5_witness :
    (setModelS baseProxy (flatModel 1)).events.countP isColumnsChangedEvent
        = baseProxy.events.countP isColumnsChangedEvent + 1
    ∧ ProxyEvent.columnsChanged 1 ∈ (setModelS baseProxy (flatModel 1)).events
    ∧ (setModelS baseProxy (flatModel 1)).viewportCalls
        = baseProxy.viewportCalls
    ∧ (setModelS c5viewportState sameColsModel).events.countP
          isColumnsChangedEvent
        = c5viewportState.events.countP isColumnsChangedEvent
    ∧ (setModelS c5viewportState sameColsModel).viewportCalls
        = (2, ⟨5, 50, none⟩) :: c5viewportState.viewportCalls := by
  refine ⟨((C5_swap_reconciliation baseProxy (flatModel 1)).1 (by decide)).1,
    ((C5_swap_reconciliation baseProxy (flatModel 1)).1 (by decide)).2.1,
    ((C5_swap_reconciliation baseProxy (flatModel 1)).1 (by decide)).2.2,
    ((C5_swap_reconciliation c5viewportState sameColsModel).2 (by decide)).1,
    ((C5_swap_reconciliation c5viewportState sameColsModel).2
        (by decide)).2.1 ⟨5, 50, none⟩ (by decide)⟩

/-! Claim C6. -/

/-- C6: on every model swap, exactly one table-changed event carrying the
underlying data-source handle of the new model is dispatched when the newly
installed model is table-backed and non-hierarchical, and no table-changed
event is dispatched otherwise; in particular none for a hierarchical
(tree-backed) new model. -/
theorem C6_table_changed_iff_table_backed (s : ProxyState) (m : ModelData) :
    (isIrisGridTableModelTemplate m = true →
      (setModelS s m).events.countP isTableChangedEvent
          = s.events.countP isTableChangedEvent + 1
      ∧ ProxyEvent.tableChanged m.tableRef ∈ (setModelS s m).events)
    ∧ (isIrisGridTableModelTemplate m = false →
      (setModelS s m).events.countP isTableChangedEvent
          = s.events.countP isTableChangedEvent)
    ∧ (isTreeTable m = true →
      (setModelS s m).events.countP isTableChangedEvent
          = s.events.countP isTableChangedEvent) := by
  have hbase : ∀ h : isIrisGridTableModelTemplate m = false,
      (setModelS s m).events.countP isTableChangedEvent
        = s.events.countP isTableChangedEvent := by
    intro ht
    rw [setModelS_eq]
    by_cases hc : s.model.columnsRef = m.columnsRef <;>
      simp [ht, hc, List.countP_cons, isTableChangedEvent,
        isColumnsChangedEvent]
  refine ⟨?_, hbase, ?_⟩
  · intro ht
    rw [setModelS_eq]
    by_cases hc : s.model.columnsRef = m.columnsRef <;>
      simp [ht, hc, List.countP_cons, isTableChangedEvent,
        isColumnsChangedEvent]
  · intro htree
    apply hbase
    unfold isTreeTable at htree
    unfold isIrisGridTableModelTemplate
    simp only [decide_eq_true_eq] at htree
    simp [htree]

/-- A hierarchical (tree-backed) replacement model. -/
def treeModel3 : ModelData :=
  { mid := 3, kind := ModelKind.tree, columns := ["A", "B"], columnsRef := 3
    tableRef := 3, expandable := true, editable := false
    rollupAvailable := false, selectDistinctAvailable := false
    customColumnsAvailable := false, partitionProvider := false
    partitionRequired := false }

/-- Witness for C6: a flat table-backed swap dispatches one table-changed
event carrying its handle; a tree-backed swap dispatches none. -/
theorem C6_witness :
    (setModelS baseProxy (flatModel 1)).events.countP isTableChangedEvent
        = baseProxy.events.countP isTableChangedEvent + 1
    ∧ ProxyEvent.tableChanged 1 ∈ (setModelS baseProxy (flatModel 1)).events
    ∧ (setModelS baseProxy treeModel3).events.countP isTableChangedEvent
        = baseProxy.events.countP isTableChangedEvent := by
  refine ⟨((C6_table_changed_iff_table_backed baseProxy (flatModel 1)).1
        (by decide)).1,
    ((C6_table_changed_iff_table_backed baseProxy (flatModel 1)).1
        (by decide)).2,
    (C6_table_changed_iff_table_backed baseProxy treeModel3).2.2 (by decide)⟩

/-! Transition-id freshness invariant: every transition id ever canceled or
currently pending is below the fresh-id counter.  This holds in every state
reachable from a freshly constructed proxy and is what makes a newly issued
transition distinct from all superseded ones. -/

/-- All recorded transition ids are below the fresh-id counter. -/
def tidsOK (s : ProxyState) : Prop :=
  (∀ t ∈ s.canceledTids, t < s.nextTid)
  ∧ (∀ t k, s.modelPromise = some (t, k) → t < s.nextTid)

theorem tidsOK_mkProxy (m : ModelData) : tidsOK (mkProxy m) := by
  constructor
  · intro t ht
    simp [mkProxy] at ht
  · intro t k h
    simp [mkProxy] at h

theorem tidsOK_of_fields {s s1 : ProxyState}
    (h1 : s1.canceledTids = s.canceledTids)
    (h2 : s1.modelPromise = s.modelPromise) (h3 : s1.nextTid = s.nextTid)
    (h : tidsOK s) : tidsOK s1 := by
  unfold tidsOK
  rw [h1, h2, h3]
  exact h

theorem tidsOK_setNextModelS {s : ProxyState} (k : TransKind)
    (h : tidsOK s) : tidsOK (setNextModelS s k) := by
  rw [setNextModelS_eq]
  constructor
  · intro t ht
    simp only at ht
    cases hp : s.modelPromise with
    | none =>
        rw [hp] at ht
        exact Nat.lt_succ_of_lt (h.1 t ht)
    | some p =>
        rw [hp] at ht
        rcases List.mem_cons.mp ht with he | hm
        · subst he
          exact Nat.lt_succ_of_lt (h.2 p.1 p.2 (by rw [hp]))
        · exact Nat.lt_succ_of_lt (h.1 t hm)
  · intro t k0 heq
    have h1 : some (s.nextTid, k) = some (t, k0) := heq
    have h2 : s.nextTid = t := by
      injection h1 with h3
      exact congrArg Prod.fst h3
    show t < s.nextTid + 1
    omega

theorem tidsOK_setModelS {s : ProxyState} (m : ModelData)
    (h : tidsOK s) : tidsOK (setModelS s m) := by
  refine tidsOK_of_fields ?_ ?_ ?_ h <;> rw [setModelS_eq]

theorem tidsOK_resolveS {s : ProxyState} (tid : Nat) (m : ModelData)
    (h : tidsOK s) : tidsOK (resolveS s tid m) := by
  unfold resolveS
  by_cases hc : tid ∈ s.canceledTids
  · simp only [hc, if_true, ite_true]
    exact tidsOK_of_fields rfl rfl rfl h
  · simp only [hc, if_false, ite_false]
    cases hp : s.modelPromise with
    | none => exact h
    | some p =>
        by_cases he : p.1 = tid
        · simp only [he, if_true, ite_true]
          refine tidsOK_setModelS m ?_
          refine ⟨h.1, ?_⟩
          intro t k0 hq
          simp at hq
        · simp only [he, if_false, ite_false]
          exact h

theorem tidsOK_rejectS {s : ProxyState} (tid err : Nat)
    (h : tidsOK s) : tidsOK (rejectS s tid err) := by
  unfold rejectS
  by_cases hc : tid ∈ s.canceledTids
  · simp only [hc, if_true, ite_true]
    exact h
  · simp only [hc, if_false, ite_false]
    cases hp : s.modelPromise with
    | none => exact h
    | some p =>
        by_cases he : p.1 = tid
        · simp only [he, if_true, ite_true]
          refine ⟨h.1, ?_⟩
          intro t k0 hq
          simp [dispatch] at hq
        · simp only [he, if_false, ite_false]
          exact h

theorem tidsOK_closeS {s : ProxyState} (h : tidsOK s) : tidsOK (closeS s) := by
  rw [closeS_eq]
  constructor
  · intro t ht
    simp only at ht
    cases hp : s.modelPromise with
    | none =>
        rw [hp] at ht
        exact h.1 t ht
    | some p =>
        rw [hp] at ht
        rcases List.mem_cons.mp ht with he | hm
        · subst he
          exact h.2 p.1 p.2 (by rw [hp])
        · exact h.1 t hm
  · intro t k0 heq
    simp only at heq
    exact h.2 t k0 heq

theorem tidsOK_rollupCfg {s s1 : ProxyState} {rc : Option RollupConfig}
    (heq : setRollupConfigS s rc = Except.ok s1) (h : tidsOK s) :
    tidsOK s1 := by
  unfold setRollupConfigS at heq
  by_cases ha : isRollupAvailableS s = true
  · simp only [ha, Bool.not_true, if_false, ite_false] at heq
    by_cases he : rc = s.rollup
    · simp only [he, if_true, ite_true] at heq
      cases heq
      exact h
    · simp only [he, if_false, ite_false] at heq
      cases heq
      exact tidsOK_setNextModelS _ (tidsOK_of_fields rfl rfl rfl h)
  · simp [ha] at heq

theorem tidsOK_partitionCfg {s s1 : ProxyState} {pc : Option PartitionConfig}
    (heq : setPartitionConfigS s pc = Except.ok s1) (h : tidsOK s) :
    tidsOK s1 := by
  unfold setPartitionConfigS at heq
  by_cases ha : isPartitionRequiredS s = true
  · simp only [ha, Bool.not_true, if_false, ite_false] at heq
    cases heq
    exact tidsOK_setNextModelS _ (tidsOK_of_fields rfl rfl rfl h)
  · simp [ha] at heq

theorem tidsOK_selectDistinctCfg {s s1 : ProxyState} {cols : ColsArr}
    (heq : setSelectDistinctColumnsS s cols = Except.ok s1) (h : tidsOK s) :
    tidsOK s1 := by
  unfold setSelectDistinctColumnsS at heq
  by_cases ha : isSelectDistinctAvailableS s = true
  · simp only [ha, Bool.not_true, if_false, ite_false] at heq
    by_cases he : (cols.ref = s.selectDistinctRef
        || (cols.vals.isEmpty && s.selectDistinct.isEmpty)) = true
    · simp only [he, if_true, ite_true] at heq
      cases heq
      exact h
    · simp only [he, if_false, ite_false] at heq
      cases heq
      exact tidsOK_setNextModelS _ (tidsOK_of_fields rfl rfl rfl h)
  · simp [ha] at heq

theorem tidsOK_step {s : ProxyState} (a : Action) (h : tidsOK s) :
    tidsOK (step s a) := by
  cases a with
  | rollupCfg rc =>
      simp only [step]
      cases heq : setRollupConfigS s rc with
      | ok s1 => exact tidsOK_rollupCfg heq h
      | error e => exact h
  | partitionCfg pc =>
      simp only [step]
      cases heq : setPartitionConfigS s pc with
      | ok s1 => exact tidsOK_partitionCfg heq h
      | error e => exact h
  | selectDistinctCfg cols =>
      simp only [step]
      cases heq : setSelectDistinctColumnsS s cols with
      | ok s1 => exact tidsOK_selectDistinctCfg heq h
      | error e => exact h
  | resolve tid m =>
      simp only [step]
      exact tidsOK_resolveS tid m h
  | reject tid err =>
      simp only [step]
      exact tidsOK_rejectS tid err h
  | closeProxy =>
      simp only [step]
      exact tidsOK_closeS h
  | viewport top bottom cols =>
      simp only [step]
      exact tidsOK_of_fields rfl rfl rfl h
  | listen =>
      simp only [step, addProxyListenerS, addListeners]
      by_cases h0 : s.listenerCount = 0 <;>
        simp only [h0, if_true, if_false, ite_true, ite_false] <;>
        exact tidsOK_of_fields rfl rfl rfl h
  | unlisten =>
      simp only [step, removeProxyListenerS, removeListeners]
      by_cases h0 : s.listenerCount = 1 <;>
        simp only [h0, if_true, if_false, ite_true, ite_false] <;>
        exact tidsOK_of_fields rfl rfl rfl h

theorem tidsOK_run {s : ProxyState} (tr : List Action) (h : tidsOK s) :
    tidsOK (run s tr) := by
  induction tr generalizing s with
  | nil => exact h
  | cons a rest ih => exact ih (tidsOK_step a h)

theorem tidsOK_reachable (m : ModelData) (tr : List Action) :
    tidsOK (run (mkProxy m) tr) := tidsOK_run tr (tidsOK_mkProxy m)

/-- A fresh id is not among a list of ids all below it. -/
theorem not_mem_of_all_lt {l : List Nat} {n : Nat}
    (h : ∀ t ∈ l, t < n) : n ∉ l :=
  fun hm => absurd (h n hm) (Nat.lt_irrefl n)

/-! Field projections of the operations, for calculational proofs. -/

theorem setNextModelS_model (s : ProxyState) (k : TransKind) :
    (setNextModelS s k).model = s.model := by rw [setNextModelS_eq]

theorem setNextModelS_modelPromise (s : ProxyState) (k : TransKind) :
    (setNextModelS s k).modelPromise = some (s.nextTid, k) := by
  rw [setNextModelS_eq]

theorem setNextModelS_nextTid (s : ProxyState) (k : TransKind) :
    (setNextModelS s k).nextTid = s.nextTid + 1 := by rw [setNextModelS_eq]

theorem setNextModelS_listenerCount (s : ProxyState) (k : TransKind) :
    (setNextModelS s k).listenerCount = s.listenerCount := by
  rw [setNextModelS_eq]

theorem setNextModelS_rollup (s : ProxyState) (k : TransKind) :
    (setNextModelS s k).rollup = s.rollup := by rw [setNextModelS_eq]

theorem setNextModelS_selectDistinct (s : ProxyState) (k : TransKind) :
    (setNextModelS s k).selectDistinct = s.selectDistinct := by
  rw [setNextModelS_eq]

theorem setNextModelS_selectDistinctRef (s : ProxyState) (k : TransKind) :
    (setNextModelS s k).selectDistinctRef = s.selectDistinctRef := by
  rw [setNextModelS_eq]

theorem setNextModelS_canceledTids_some (s : ProxyState) (k : TransKind)
    (t : Nat) (k0 : TransKind) (hp : s.modelPromise = some (t, k0)) :
    (setNextModelS s k).canceledTids = t :: s.canceledTids := by
  rw [setNextModelS_eq]
  simp [hp]

theorem setNextModelS_subs_listening (s : ProxyState) (k : TransKind)
    (hl : 0 < s.listenerCount) :
    (setNextModelS s k).subs = s.subs.filter (fun x => x ≠ s.model.mid) := by
  rw [setNextModelS_eq]
  simp [hl]

theorem setModelS_model (s : ProxyState) (m : ModelData) :
    (setModelS s m).model = m := by rw [setModelS_eq]

theorem setModelS_modelPromise (s : ProxyState) (m : ModelData) :
    (setModelS s m).modelPromise = s.modelPromise := by rw [setModelS_eq]

theorem setModelS_canceledTids (s : ProxyState) (m : ModelData) :
    (setModelS s m).canceledTids = s.canceledTids := by rw [setModelS_eq]

theorem setModelS_subs (s : ProxyState) (m : ModelData) :
    (setModelS s m).subs
      = if 0 < s.listenerCount then m.mid :: s.subs else s.subs := by
  rw [setModelS_eq]

theorem setModelS_closedLog (s : ProxyState) (m : ModelData) :
    (setModelS s m).closedLog
      = if s.model.mid = s.originalModel.mid then s.closedLog
        else s.model.mid :: s.closedLog := by
  rw [setModelS_eq]

/-- Resolution of a canceled transition: only the disposal callback runs. -/
theorem resolveS_canceled (s : ProxyState) (tid : Nat) (m : ModelData)
    (h : tid ∈ s.canceledTids) :
    resolveS s tid m = { s with closedLog := m.mid :: s.closedLog } := by
  unfold resolveS
  simp [h]

/-- Resolution of the current uncanceled pending transition: the slot is
cleared and the model installed via `setModel`. -/
theorem resolveS_current (s : ProxyState) (tid : Nat) (m : ModelData)
    (k : TransKind) (hnc : tid ∉ s.canceledTids)
    (hp : s.modelPromise = some (tid, k)) :
    resolveS s tid m = setModelS { s with modelPromise := none } m := by
  unfold resolveS
  simp [hnc, hp]

/-! Claim C1. -/

/-- Two configuration-change issuances in a row, each routed through
`setNextModel`. -/
def issueTwice (s : ProxyState) (k1 k2 : TransKind) : ProxyState :=
  setNextModelS (setNextModelS s k1) k2

/-- Supersession over an arbitrary state satisfying the transition-id
freshness invariant: issuing two transitions back-to-back leaves only the
second pending, cancels the first, and whichever order the two underlying
promises complete in, the superseded one never installs its model and the
final active model is the one of the last issued transition. -/
theorem supersession_general (s : ProxyState) (hOK : tidsOK s)
    (k1 k2 : TransKind) (mA mB : ModelData) :
    (issueTwice s k1 k2).modelPromise = some (s.nextTid + 1, k2)
    ∧ s.nextTid ∈ (issueTwice s k1 k2).canceledTids
    ∧ (resolveS (issueTwice s k1 k2) s.nextTid mA).model
        = (issueTwice s k1 k2).model
    ∧ (resolveS (resolveS (issueTwice s k1 k2) s.nextTid mA)
        (s.nextTid + 1) mB).model = mB
    ∧ (resolveS (resolveS (issueTwice s k1 k2) (s.nextTid + 1) mB)
        s.nextTid mA).model = mB := by
  have hslot1 : (setNextModelS s k1).modelPromise = some (s.nextTid, k1) :=
    setNextModelS_modelPromise s k1
  have hnext1 : (setNextModelS s k1).nextTid = s.nextTid + 1 :=
    setNextModelS_nextTid s k1
  have hcanc2 : (issueTwice s k1 k2).canceledTids
      = s.nextTid :: (setNextModelS s k1).canceledTids :=
    setNextModelS_canceledTids_some _ k2 _ k1 hslot1
  have hslot2 : (issueTwice s k1 k2).modelPromise = some (s.nextTid + 1, k2) := by
    unfold issueTwice
    rw [setNextModelS_modelPromise, hnext1]
  have hOK1 : tidsOK (setNextModelS s k1) := tidsOK_setNextModelS k1 hOK
  have hbound : ∀ t ∈ (issueTwice s k1 k2).canceledTids, t < s.nextTid + 1 := by
    intro t ht
    rw [hcanc2] at ht
    rcases List.mem_cons.mp ht with he | hm
    · omega
    · have := hOK1.1 t hm
      omega
  have hmem : s.nextTid ∈ (issueTwice s k1 k2).canceledTids := by
    rw [hcanc2]
    exact List.mem_cons_self _ _
  have hnotmem : s.nextTid + 1 ∉ (issueTwice s k1 k2).canceledTids :=
    not_mem_of_all_lt hbound
  refine ⟨hslot2, hmem, ?_, ?_, ?_⟩
  · rw [resolveS_canceled _ _ _ hmem]
  · rw [resolveS_canceled _ _ _ hmem]
    have hco := resolveS_current
        { issueTwice s k1 k2 with
          closedLog := mA.mid :: (issueTwice s k1 k2).closedLog }
        (s.nextTid + 1) mB k2 hnotmem hslot2
    rw [hco]
    exact setModelS_model _ _
  · rw [resolveS_current _ _ _ k2 hnotmem hslot2]
    have hc : s.nextTid ∈ (setModelS
        { issueTwice s k1 k2 with modelPromise := none } mB).canceledTids := by
      rw [setModelS_canceledTids]
      exact hmem
    rw [resolveS_canceled _ _ _ hc]
    exact setModelS_model _ _

/-- C1: supersession.  In any state reachable from a fresh proxy, issuing
two configuration-change transitions through `setNextModel` without
awaiting completion leaves exactly the second one pending (the pending slot
holds at most one transition by construction), cancels the first before
recording the second, never installs the superseded transition's resolved
model (its late resolution leaves the active model unchanged), and in both
completion orders the final active model is the model of the last issued
transition. -/
theorem C1_supersession (m0 : ModelData) (tr : List Action)
    (k1 k2 : TransKind) (mA mB : ModelData) :
    (issueTwice (run (mkProxy m0) tr) k1 k2).modelPromise
        = some ((run (mkProxy m0) tr).nextTid + 1, k2)
    ∧ (run (mkProxy m0) tr).nextTid
        ∈ (issueTwice (run (mkProxy m0) tr) k1 k2).canceledTids
    ∧ (resolveS (issueTwice (run (mkProxy m0) tr) k1 k2)
          (run (mkProxy m0) tr).nextTid mA).model
        = (issueTwice (run (mkProxy m0) tr) k1 k2).model
    ∧ (resolveS (resolveS (issueTwice (run (mkProxy m0) tr) k1 k2)
          (run (mkProxy m0) tr).nextTid mA)
          ((run (mkProxy m0) tr).nextTid + 1) mB).model = mB
    ∧ (resolveS (resolveS (issueTwice (run (mkProxy m0) tr) k1 k2)
          ((run (mkProxy m0) tr).nextTid + 1) mB)
          (run (mkProxy m0) tr).nextTid mA).model = mB :=
  supersession_general (run (mkProxy m0) tr) (tidsOK_reachable m0 tr) k1 k2 mA mB

/-! Claim C7. -/

/-- Proxy with one listener after one rollup change was issued and has not
yet completed: the transition is pending. -/
def c7state : ProxyState :=
  run baseProxy [Action.listen, Action.rollupCfg (some sampleRollup)]

/-- C7 counterexample: with a listener attached and a configuration change
issued but not yet completed, the proxy is subscribed to no model at all —
`setNextModel` removes the listeners from the old active model synchronously
at issuance, and they are only re-attached when the swap completes, so a
window exists in which the proxy is subscribed to neither the old nor the
new model. -/
theorem C7_counterexample :
    0 < c7state.listenerCount
    ∧ c7state.modelPromise = some (1, TransKind.build)
    ∧ c7state.subs = [] := by
  refine ⟨by decide, by decide, by decide⟩

/-- C7 amended: while the proxy has listeners, the event subscription is
removed from the old active model synchronously when the configuration
change is issued, and attached to the new model only when the resulting
swap completes; during the in-flight window the proxy is subscribed to
neither model, and after the swap completes it is subscribed to the new
model and no longer to the old one — never to both. -/
theorem C7_subscription_window (s : ProxyState) (k : TransKind)
    (m : ModelData) (hl : 0 < s.listenerCount) (hOK : tidsOK s)
    (hm : m.mid ∉ s.subs) (hne : m.mid ≠ s.model.mid) :
    s.model.mid ∉ (setNextModelS s k).subs
    ∧ m.mid ∉ (setNextModelS s k).subs
    ∧ m.mid ∈ (resolveS (setNextModelS s k) s.nextTid m).subs
    ∧ s.model.mid ∉ (resolveS (setNextModelS s k) s.nextTid m).subs := by
  have hsubs1 : (setNextModelS s k).subs
      = s.subs.filter (fun x => x ≠ s.model.mid) :=
    setNextModelS_subs_listening s k hl
  have hold1 : s.model.mid ∉ (setNextModelS s k).subs := by
    rw [hsubs1]
    intro hmem
    have := List.of_mem_filter hmem
    simp at this
  have hnew1 : m.mid ∉ (setNextModelS s k).subs := by
    rw [hsubs1]
    intro hmem
    exact hm (List.mem_of_mem_filter hmem)
  have hnc : s.nextTid ∉ (setNextModelS s k).canceledTids := by
    refine not_mem_of_all_lt ?_
    intro t ht
    rw [setNextModelS_eq] at ht
    simp only at ht
    cases hp : s.modelPromise with
    | none =>
        rw [hp] at ht
        exact hOK.1 t ht
    | some p =>
        rw [hp] at ht
        rcases List.mem_cons.mp ht with he | hm2
        · subst he
          exact hOK.2 p.1 p.2 (by rw [hp])
        · exact hOK.1 t hm2
  have hres : resolveS (setNextModelS s k) s.nextTid m
      = setModelS { setNextModelS s k with modelPromise := none } m :=
    resolveS_current _ _ _ k hnc (setNextModelS_modelPromise s k)
  have hsubs2 : (resolveS (setNextModelS s k) s.nextTid m).subs
      = m.mid :: (setNextModelS s k).subs := by
    rw [hres, setModelS_subs]
    have hlc : ({ setNextModelS s k with
        modelPromise := none } : ProxyState).listenerCount
        = s.listenerCount := setNextModelS_listenerCount s k
    rw [hlc, if_pos hl]
  refine ⟨hold1, hnew1, ?_, ?_⟩
  · rw [hsubs2]
    exact List.mem_cons_self _ _
  · rw [hsubs2]
    intro hmem
    rcases List.mem_cons.mp hmem with he | hmem2
    · exact hne he.symm
    · exact hold1 hmem2

/-- Proxy with one listener attached and no transition issued yet. -/
def c7listening : ProxyState := run baseProxy [Action.listen]

/-- Witness for the amended C7 at a concrete listening state. -/
theorem C7_witness :
    c7listening.model.mid ∉ (setNextModelS c7listening TransKind.build).subs
    ∧ (flatModel 1).mid ∉ (setNextModelS c7listening TransKind.build).subs
    ∧ (flatModel 1).mid ∈ (resolveS (setNextModelS c7listening TransKind.build)
          c7listening.nextTid (flatModel 1)).subs
    ∧ c7listening.model.mid
        ∉ (resolveS (setNextModelS c7listening TransKind.build)
            c7listening.nextTid (flatModel 1)).subs := by
  have hOK : tidsOK c7listening := by
    constructor
    · intro t ht
      have h1 : c7listening.canceledTids = [] := by decide
      rw [h1] at ht
      cases ht
    · intro t k h
      have h1 : c7listening.modelPromise = none := by decide
      rw [h1] at h
      cases h
  exact C7_subscription_window c7listening TransKind.build (flatModel 1)
    (by decide) hOK (by decide) (by decide)

/-! Claim C8. -/

/-- Trace refuting the no-double-dispose claim: a rollup is set (transition
1 pending), the rollup is cleared (transition 1 canceled, transition 2
pending and due to resolve to `originalModel` itself), the proxy is closed
(closing `originalModel` and canceling transition 2), and then the
underlying promise of transition 2 resolves with `originalModel`, whose
disposal callback closes `originalModel` a second time. -/
def c8state : ProxyState :=
  run baseProxy
    [Action.rollupCfg (some sampleRollup), Action.rollupCfg none,
      Action.closeProxy, Action.resolve 2 (flatModel 0)]

/-- C8 counterexample: the original model (reference id 0) is closed twice —
once by `close()` and once by the disposal callback of the canceled pending
transition that resolves to `originalModel` — so not every backing model is
closed exactly once. -/
theorem C8_counterexample :
    c8state.originalModel.mid = 0 ∧ c8state.closedLog.count 0 = 2 := by
  refine ⟨by decide, by decide⟩

/-- C8 amended: closing the proxy closes `originalModel`, closes the active
model exactly when it is a different object, and cancels the pending
transition; a canceled transition's late resolution invokes the disposal
callback exactly once on the produced model, and an uncanceled resolution
closes only the replaced active model (when distinct from the original) and
never invokes the disposal callback.  However, a model produced by a
transition may be `originalModel` itself (the cleared-configuration
transition resolves to it), and in that case the disposal after `close()`
closes `originalModel` a second time, so the exactly-once guarantee holds
only for produced models distinct from `originalModel`. -/
theorem C8_close_and_dispose (s : ProxyState) (tid : Nat) (m : ModelData)
    (k : TransKind) :
    ((closeS s).closedLog =
        if s.model.mid = s.originalModel.mid then
          s.originalModel.mid :: s.closedLog
        else s.model.mid :: s.originalModel.mid :: s.closedLog)
    ∧ (∀ t k0, s.modelPromise = some (t, k0) → t ∈ (closeS s).canceledTids)
    ∧ (tid ∈ s.canceledTids →
        (resolveS s tid m).closedLog = m.mid :: s.closedLog)
    ∧ (tid ∉ s.canceledTids → s.modelPromise = some (tid, k) →
        (resolveS s tid m).closedLog =
          if s.model.mid = s.originalModel.mid then s.closedLog
          else s.model.mid :: s.closedLog) := by
  refine ⟨?_, ?_, ?_, ?_⟩
  · rw [closeS_eq]
  · intro t k0 hp
    rw [closeS_eq]
    simp only [hp]
    exact List.mem_cons_self _ _
  · intro hc
    rw [resolveS_canceled _ _ _ hc]
  · intro hnc hp
    rw [resolveS_current _ _ _ k hnc hp, setModelS_closedLog]

/-- Proxy after one completed rollup swap: the active model (id 1) differs
from the original (id 0). -/
def c8swapped : ProxyState :=
  run baseProxy [Action.rollupCfg (some sampleRollup), Action.resolve 1 (flatModel 1)]

/-- Proxy with transition 1 canceled and transition 2 pending. -/
def c8pending : ProxyState :=
  run baseProxy [Action.rollupCfg (some sampleRollup), Action.rollupCfg none]

/-- Witness for the amended C8: closing after one swap closes the replaced
model then the original exactly once each; close cancels the pending
transition; a canceled transition's resolution disposes its model once; an
uncanceled resolution disposes nothing beyond the replaced active model. -/
theorem C8_witness :
    (closeS c8swapped).closedLog = [1, 0]
    ∧ 2 ∈ (closeS c8pending).canceledTids
    ∧ (resolveS c8pending 1 (flatModel 7)).closedLog
        = (flatModel 7).mid :: c8pending.closedLog
    ∧ (resolveS c8pending 2 (flatModel 9)).closedLog = c8pending.closedLog := by
  refine ⟨?_, ?_, ?_, ?_⟩
  · rw [(C8_close_and_dispose c8swapped 1 (flatModel 7) TransKind.build).1]
    decide
  · exact (C8_close_and_dispose c8pending 1 (flatModel 7)
      TransKind.build).2.1 2 TransKind.toOriginal (by decide)
  · exact (C8_close_and_dispose c8pending 1 (flatModel 7)
      TransKind.build).2.2.1 (by decide)
  · rw [(C8_close_and_dispose c8pending 2 (flatModel 9)
      TransKind.toOriginal).2.2.2 (by decide) (by decide)]
    decide

/-! Claim C2. -/

/-- Proxy after one select-distinct change to `["A"]` was issued (array
reference 1), still pending: the stored select-distinct list is `["A"]`. -/
def c2sdState : ProxyState :=
  run baseProxy [Action.selectDistinctCfg ⟨1, ["A"]⟩]

/-- C2 counterexample: the equal-value no-op does not apply identically to
the three setters.  Setting a partition configuration deep-equal to the
stored one starts a new transition (the partition setter has no equality
check), and passing the select-distinct setter a fresh array object whose
contents deep-equal the stored list also starts a new transition, canceling
the pending one (the select-distinct guard compares array reference
identity, not deep equality). -/
theorem C2_counterexample :
    (c2state.partition = some samplePartitionCfg
      ∧ c2state.modelPromise = none
      ∧ (step c2state
            (Action.partitionCfg (some samplePartitionCfg))).modelPromise
          = some (2, TransKind.build))
    ∧ (c2sdState.selectDistinct = ["A"]
      ∧ c2sdState.selectDistinctRef = 1
      ∧ c2sdState.modelPromise = some (1, TransKind.build)
      ∧ (step c2sdState
            (Action.selectDistinctCfg ⟨2, ["A"]⟩)).modelPromise
          = some (2, TransKind.build)
      ∧ (step c2sdState
            (Action.selectDistinctCfg ⟨2, ["A"]⟩)).canceledTids = [1]) := by
  refine ⟨⟨by decide, by decide, by decide⟩,
    by decide, by decide, by decide, by decide, by decide⟩

/-- C2 amended: the equal-configuration no-op protocol differs per setter.
The rollup setter no-ops (same state, no transition, no event) exactly on
deep equality: on a deep-equal value it returns the state unchanged, and on
any other value it records the config and starts a new transition.  The
select-distinct setter no-ops only when passed the identical array object
or when both the argument and the stored list are empty: whenever the
argument is a different array object and not both are empty — including an
argument whose contents deep-equal the stored list — it records the columns
and starts a new transition.  The partition setter performs no equality
check at all and always starts a new transition, even when the new
configuration deep-equals the stored one. -/
theorem C2_equal_config_noop_per_setter (s : ProxyState)
    (rc : Option RollupConfig) (cols : ColsArr) (pc : Option PartitionConfig)
    (s3 : ProxyState) :
    (isRollupAvailableS s = true → rc = s.rollup →
        setRollupConfigS s rc = Except.ok s)
    ∧ (isRollupAvailableS s = true → rc ≠ s.rollup →
        ∃ s1, setRollupConfigS s rc = Except.ok s1
          ∧ s1.rollup = rc
          ∧ s1.modelPromise = some (s.nextTid,
              if isIrisGridTableModelTemplate s.originalModel && rc.isSome
              then TransKind.build else TransKind.toOriginal)
          ∧ s1.nextTid = s.nextTid + 1)
    ∧ (isSelectDistinctAvailableS s = true →
        (cols.ref = s.selectDistinctRef
          ∨ (cols.vals = [] ∧ s.selectDistinct = [])) →
        setSelectDistinctColumnsS s cols = Except.ok s)
    ∧ (isSelectDistinctAvailableS s = true →
        cols.ref ≠ s.selectDistinctRef →
        ¬(cols.vals = [] ∧ s.selectDistinct = []) →
        ∃ s2, setSelectDistinctColumnsS s cols = Except.ok s2
          ∧ s2.selectDistinct = cols.vals
          ∧ s2.selectDistinctRef = cols.ref
          ∧ s2.modelPromise = some (s.nextTid,
              if isIrisGridTableModelTemplate s.originalModel
                  && !(cols.vals.filter
                        (fun n => s.originalModel.columns.contains n)).isEmpty
              then TransKind.build else TransKind.toOriginal)
          ∧ s2.nextTid = s.nextTid + 1)
    ∧ (isPartitionRequiredS s = true →
        setPartitionConfigS s pc = Except.ok s3 →
        s3.partition = pc
        ∧ s3.modelPromise = some (s.nextTid,
            if pc.isSome then TransKind.build else TransKind.toOriginal)
        ∧ s3.nextTid = s.nextTid + 1) := by
  refine ⟨?_, ?_, ?_, ?_, ?_⟩
  · intro ha he
    simp [setRollupConfigS, ha, he]
  · intro ha hne
    refine ⟨setNextModelS { s with rollup := rc }
        (if isIrisGridTableModelTemplate s.originalModel && rc.isSome
         then TransKind.build else TransKind.toOriginal), ?_, ?_, ?_, ?_⟩
    · simp [setRollupConfigS, ha, hne]
    · rw [setNextModelS_rollup]
    · rw [setNextModelS_modelPromise]
    · rw [setNextModelS_nextTid]
  · intro ha he
    have hcond : (cols.ref = s.selectDistinctRef
        || (cols.vals.isEmpty && s.selectDistinct.isEmpty)) = true := by
      rcases he with h | ⟨h1, h2⟩
      · simp [h]
      · simp [h1, h2]
    simp [setSelectDistinctColumnsS, ha, hcond]
  · intro ha href hboth
    have hcond : (cols.ref = s.selectDistinctRef
        || (cols.vals.isEmpty && s.selectDistinct.isEmpty)) = false := by
      cases hv : cols.vals with
      | nil =>
          cases hsd : s.selectDistinct with
          | nil => exact absurd ⟨hv, hsd⟩ hboth
          | cons a l => simp [href, hv, hsd]
      | cons a l => simp [href, hv]
    refine ⟨setNextModelS
        { s with selectDistinct := cols.vals, selectDistinctRef := cols.ref }
        (if isIrisGridTableModelTemplate s.originalModel
            && !(cols.vals.filter
                  (fun n => s.originalModel.columns.contains n)).isEmpty
         then TransKind.build else TransKind.toOriginal), ?_, ?_, ?_, ?_, ?_⟩
    · simp [setSelectDistinctColumnsS, ha, hcond]
    · rw [setNextModelS_selectDistinct]
    · rw [setNextModelS_selectDistinctRef]
    · rw [setNextModelS_modelPromise]
    · rw [setNextModelS_nextTid]
  · intro ha h
    have hprov : isPartitionedGridModelProvider s.originalModel = true := by
      unfold isPartitionRequiredS at ha
      exact ((Bool.and_eq_true _ _).mp ha).1
    unfold setPartitionConfigS at h
    simp only [ha, Bool.not_true, if_false, ite_false] at h
    cases h
    cases pc with
    | none => simp [setNextModelS_eq, hprov]
    | some c => simp [setNextModelS_eq, hprov]

/-- Witness for the amended C2: the rollup no-op on a deep-equal value and
restart on a different value, the select-distinct no-op on the empty list
and restart on a deep-equal fresh array object, and the partition setter
starting a transition on a deep-equal configuration. -/
theorem C2_witness :
    setRollupConfigS c4rollupState (some sampleRollup) = Except.ok c4rollupState
    ∧ (∃ s1, setRollupConfigS baseProxy (some sampleRollup) = Except.ok s1
        ∧ s1.rollup = some sampleRollup
        ∧ s1.modelPromise = some (1, TransKind.build)
        ∧ s1.nextTid = 2)
    ∧ setSelectDistinctColumnsS baseProxy ⟨9, []⟩ = Except.ok baseProxy
    ∧ (∃ s2, setSelectDistinctColumnsS c2sdState ⟨2, ["A"]⟩ = Except.ok s2
        ∧ s2.selectDistinct = ["A"]
        ∧ s2.selectDistinctRef = 2
        ∧ s2.modelPromise = some (2, TransKind.build)
        ∧ s2.nextTid = 3)
    ∧ (step c2state (Action.partitionCfg (some samplePartitionCfg))).partition
          = some samplePartitionCfg
      ∧ (step c2state
            (Action.partitionCfg (some samplePartitionCfg))).modelPromise
          = some (c2state.nextTid, TransKind.build)
      ∧ (step c2state
            (Action.partitionCfg (some samplePartitionCfg))).nextTid
          = c2state.nextTid + 1 := by
  refine ⟨(C2_equal_config_noop_per_setter c4rollupState (some sampleRollup)
        ⟨9, []⟩ (some samplePartitionCfg) c2state).1 (by decide) (by decide),
    ?_,
    (C2_equal_config_noop_per_setter baseProxy (some sampleRollup)
        ⟨9, []⟩ (some samplePartitionCfg) c2state).2.2.1 (by decide)
        (Or.inr ⟨rfl, by decide⟩),
    ?_, ?_⟩
  · obtain ⟨s1, h1, h2, h3, h4⟩ :=
      (C2_equal_config_noop_per_setter baseProxy (some sampleRollup)
        ⟨9, []⟩ (some samplePartitionCfg) c2state).2.1 (by decide) (by decide)
    refine ⟨s1, h1, h2, ?_, ?_⟩
    · rw [h3]
      decide
    · rw [h4]
      decide
  · obtain ⟨s2, h1, h2, h3, h4, h5⟩ :=
      (C2_equal_config_noop_per_setter c2sdState (some sampleRollup)
        ⟨2, ["A"]⟩ (some samplePartitionCfg) c2state).2.2.2.1 (by decide)
        (by decide) (by decide)
    refine ⟨s2, h1, h2, h3, ?_, ?_⟩
    · rw [h4]
      decide
    · rw [h5]
      decide
  · have h := (C2_equal_config_noop_per_setter c2state (some sampleRollup)
        ⟨9, []⟩ (some samplePartitionCfg)
        (step c2state (Action.partitionCfg (some samplePartitionCfg)))).2.2.2.2
        (by decide) (by rfl)
    exact ⟨h.1, h.2.1, h.2.2⟩

end IrisGridProxy
